import Mathlib

/-!
Shallow embedding of the `jupyter-k8s` reconciliation engine
(`src/jupyter_k8s/controllers/notebook.py` and `src/jupyter_k8s/models.py`).

Modelling choices:
- Untyped Python payloads (the raw spec dict, the old/new resource bodies)
  are modelled by `Value`, a JSON-like inductive; Python dicts become ordered
  association lists `List (String × Value)`, with Python `dict.get`
  modelled by `List.lookup`, and Python structural equality `==` modelled by
  decidable equality on `Value` (faithful for the canonically-ordered bodies
  the event substrate delivers).
- Pydantic validation (`JupyterServerSpec(**spec)`) becomes
  `validateSpec : List (String × Value) → Except String JupyterServerSpec`,
  succeeding exactly when the pydantic model accepts the payload
  (required `name`/`image` strings, optional `desiredStatus` literal,
  optional `serviceAccountName` string, optional nested `resources`).
- The injected cluster-API client is modelled by an explicit response oracle:
  each handler takes the `ApiResponse` each of its potential external calls
  would receive, and returns both its status object and the ordered list of
  `ApiCall`s it actually issued. A raised `ApiException` is `ApiResponse.apiError`
  with its `status` code and `str(e)` message; returning from the handler
  models returning without raising.
- Kubernetes descriptor classes (`V1Deployment`, `V1Service`, ...) are
  structures carrying exactly the fields the builders set; `nsName` stands
  for the Python `namespace` field (a Lean keyword).
-/

namespace JupyterK8s

/-- A JSON-like value, modelling untyped Python payloads. -/
inductive Value where
  | vstr (s : String)
  | vint (n : Int)
  | vbool (b : Bool)
  | vnull
  | vobj (fields : List (String × Value))

mutual

/-- Structural equality on `Value`, modelling Python `==` on payloads. -/
def Value.beq : Value → Value → Bool
  | .vstr a, .vstr b => a == b
  | .vint a, .vint b => a == b
  | .vbool a, .vbool b => a == b
  | .vnull, .vnull => true
  | .vobj fa, .vobj fb => Value.beqFields fa fb
  | _, _ => false

/-- Structural equality on object field lists. -/
def Value.beqFields : List (String × Value) → List (String × Value) → Bool
  | [], [] => true
  | (k1, v1) :: t1, (k2, v2) :: t2 =>
      k1 == k2 && Value.beq v1 v2 && Value.beqFields t1 t2
  | _, _ => false

end

/-- `models.py` `ResourceRequirements`: optional `requests`/`limits` string maps. -/
structure ResourceRequirements where
  requests : Option (List (String × String)) := none
  limits : Option (List (String × String)) := none
deriving DecidableEq

/-- The `desiredStatus` literal values `"Running" | "Stopped"`. -/
inductive DesiredStatus where
  | running
  | stopped
deriving DecidableEq

/-- `models.py` `JupyterServerSpec`: the validated typed spec. -/
structure JupyterServerSpec where
  name : String
  image : String
  desiredStatus : Option DesiredStatus := some .running
  serviceAccountName : Option String := none
  resources : Option ResourceRequirements := none
deriving DecidableEq

/-- Validate one `requests`/`limits` entry list: every value must be a string. -/
def asStringMap : List (String × Value) → Except String (List (String × String))
  | [] => .ok []
  | (k, .vstr s) :: t => (asStringMap t).map (fun r => (k, s) :: r)
  | (k, _) :: _ => .error (k ++ ": Input should be a valid string")

/-- Validate an optional string-map field (`requests` or `limits`) of the
`resources` object: absent or null means `none`. -/
def validateOptStringMap (fields : List (String × Value)) (key : String) :
    Except String (Option (List (String × String))) :=
  match fields.lookup key with
  | none => .ok none
  | some .vnull => .ok none
  | some (.vobj kvs) => (asStringMap kvs).map some
  | some _ => .error (key ++ ": Input should be a valid dictionary")

/-- Validate the nested `resources` object into `ResourceRequirements`. -/
def validateResourcesFields (fields : List (String × Value)) :
    Except String ResourceRequirements := do
  let requests ← validateOptStringMap fields "requests"
  let limits ← validateOptStringMap fields "limits"
  .ok { requests := requests, limits := limits }

/-- Pydantic validation `JupyterServerSpec(**spec)`: succeeds on exactly the
payloads the model accepts, with the defaults of `models.py`
(`desiredStatus` defaults to `"Running"`; extra keys are ignored). -/
def validateSpec (spec : List (String × Value)) : Except String JupyterServerSpec := do
  let name ← match spec.lookup "name" with
    | some (.vstr s) => Except.ok s
    | some _ => Except.error "name: Input should be a valid string"
    | none => Except.error "name: Field required"
  let image ← match spec.lookup "image" with
    | some (.vstr s) => Except.ok s
    | some _ => Except.error "image: Input should be a valid string"
    | none => Except.error "image: Field required"
  let desiredStatus ← match spec.lookup "desiredStatus" with
    | none => Except.ok (some DesiredStatus.running)
    | some .vnull => Except.ok none
    | some (.vstr "Running") => Except.ok (some DesiredStatus.running)
    | some (.vstr "Stopped") => Except.ok (some DesiredStatus.stopped)
    | some _ => Except.error "desiredStatus: Input should be 'Running' or 'Stopped'"
  let serviceAccountName ← match spec.lookup "serviceAccountName" with
    | none => Except.ok none
    | some .vnull => Except.ok none
    | some (.vstr s) => Except.ok (some s)
    | some _ => Except.error "serviceAccountName: Input should be a valid string"
  let resources ← match spec.lookup "resources" with
    | none => Except.ok none
    | some .vnull => Except.ok none
    | some (.vobj kvs) => (validateResourcesFields kvs).map some
    | some _ => Except.error "resources: Input should be a valid dictionary"
  .ok { name := name, image := image, desiredStatus := desiredStatus,
        serviceAccountName := serviceAccountName, resources := resources }

/-- `V1ObjectMeta` (the fields the builders set); `nsName` models `namespace`. -/
structure ObjectMeta where
  name : Option String := none
  nsName : Option String := none
  labels : Option (List (String × String)) := none
deriving DecidableEq

/-- `V1ContainerPort`. -/
structure ContainerPort where
  containerPort : Nat
  name : String
deriving DecidableEq

/-- `V1EnvVar`. -/
structure EnvVar where
  name : String
  value : String
deriving DecidableEq

/-- `V1HTTPGetAction`. -/
structure HTTPGetAction where
  path : String
  port : Nat
deriving DecidableEq

/-- `V1Probe`. -/
structure Probe where
  httpGet : HTTPGetAction
  initialDelaySeconds : Nat
  periodSeconds : Nat
deriving DecidableEq

/-- `V1Container` (the fields `create_jupyter_deployment` sets). -/
structure Container where
  name : String
  image : String
  ports : List ContainerPort
  env : List EnvVar
  livenessProbe : Probe
  readinessProbe : Probe
  resources : Option ResourceRequirements := none
deriving DecidableEq

/-- `V1PodSpec`. -/
structure PodSpec where
  containers : List Container
deriving DecidableEq

/-- `V1PodTemplateSpec`. -/
structure PodTemplateSpec where
  metadata : ObjectMeta
  spec : PodSpec
deriving DecidableEq

/-- `V1LabelSelector`. -/
structure LabelSelector where
  matchLabels : List (String × String)
deriving DecidableEq

/-- `V1DeploymentSpec`. -/
structure DeploymentSpec where
  replicas : Nat
  selector : LabelSelector
  template : PodTemplateSpec
deriving DecidableEq

/-- `V1Deployment`. -/
structure Deployment where
  apiVersion : String
  kind : String
  metadata : ObjectMeta
  spec : DeploymentSpec
deriving DecidableEq

/-- `V1ServicePort`. -/
structure ServicePort where
  port : Nat
  targetPort : Nat
  name : String
deriving DecidableEq

/-- `V1ServiceSpec`. -/
structure ServiceSpec where
  selector : List (String × String)
  ports : List ServicePort
  type : String
deriving DecidableEq

/-- `V1Service`. -/
structure Service where
  apiVersion : String
  kind : String
  metadata : ObjectMeta
  spec : ServiceSpec
deriving DecidableEq

/-- `create_jupyter_deployment(name, namespace, jupyter_spec)` from
`controllers/notebook.py`. The Python code attaches `container.resources`
only when `jupyter_spec.resources.dict()` is truthy, i.e. exactly when
`jupyter_spec.resources` is present (the dict always has both keys). -/
def create_jupyter_deployment (name nsName : String)
    (jupyter_spec : JupyterServerSpec) : Deployment :=
  let image := jupyter_spec.image
  let container : Container :=
    { name := "jupyter"
      image := image
      ports := [{ containerPort := 8888, name := "jupyter" }]
      env := [{ name := "JUPYTER_ENABLE_LAB", value := "yes" },
              { name := "JUPYTER_TOKEN", value := "" }]
      livenessProbe :=
        { httpGet := { path := "/api", port := 8888 }
          initialDelaySeconds := 30
          periodSeconds := 10 }
      readinessProbe :=
        { httpGet := { path := "/api", port := 8888 }
          initialDelaySeconds := 5
          periodSeconds := 5 }
      resources := jupyter_spec.resources }
  let template : PodTemplateSpec :=
    { metadata := { labels := some [("app", "jupyter-server"), ("instance", name)] }
      spec := { containers := [container] } }
  let deployment_spec : DeploymentSpec :=
    { replicas := 1
      selector := { matchLabels := [("app", "jupyter-server"), ("instance", name)] }
      template := template }
  { apiVersion := "apps/v1"
    kind := "Deployment"
    metadata :=
      { name := some ("jupyter-" ++ name)
        nsName := some nsName
        labels := some [("app", "jupyter-server"), ("instance", name)] }
    spec := deployment_spec }

/-- `create_jupyter_service(name, namespace)` from `controllers/notebook.py`. -/
def create_jupyter_service (name nsName : String) : Service :=
  { apiVersion := "v1"
    kind := "Service"
    metadata :=
      { name := some ("jupyter-" ++ name ++ "-service")
        nsName := some nsName
        labels := some [("app", "jupyter-server"), ("instance", name)] }
    spec :=
      { selector := [("app", "jupyter-server"), ("instance", name)]
        ports := [{ port := 8888, targetPort := 8888, name := "jupyter" }]
        type := "ClusterIP" } }

/-- `accessInstructions` of the Running status. -/
structure AccessInstructions where
  portForward : String
  url : String
deriving DecidableEq

/-- The `"status"` dict a handler returns; absent keys are `none`. -/
structure StatusObj where
  phase : String
  deploymentName : Option String := none
  serviceName : Option String := none
  accessInstructions : Option AccessInstructions := none
  error : Option String := none
  message : Option String := none
deriving DecidableEq

/-- The outcome the cluster-API client gives one call: either the call
returned a result object (`ok`, carrying `result.metadata.name`, or `none`
when the result has no metadata), or it raised `ApiException` (`apiError`,
carrying `e.status` and `str(e)`). -/
inductive ApiResponse where
  | ok (metaName : Option String)
  | apiError (status : Nat) (msg : String)
deriving DecidableEq

/-- One external cluster-API call, as issued by a handler. -/
inductive ApiCall where
  | createDeployment (nsName : String) (body : Deployment)
  | createService (nsName : String) (body : Service)
  | patchDeployment (name nsName : String) (body : Deployment)
  | deleteDeployment (name nsName : String)
  | deleteService (name nsName : String)
deriving DecidableEq

/-- `handle_create_notebook(spec, name, namespace, meta)`.
`deployResp`/`serviceResp` are the responses the client would give the
deployment-creation and service-creation calls. Returns the status dict
together with the ordered list of external calls actually issued. -/
def handle_create_notebook (spec : List (String × Value)) (name nsName : String)
    (meta : List (String × Value)) (deployResp serviceResp : ApiResponse) :
    StatusObj × List ApiCall :=
  match validateSpec spec with
  | .error e =>
      ({ phase := "Failed", error := some e, message := some "Invalid spec" }, [])
  | .ok jupyter_spec =>
      let deployment := create_jupyter_deployment name nsName jupyter_spec
      match deployResp with
      | .apiError _ e =>
          ({ phase := "Failed", error := some e, message := some "Failed to create resources" },
           [.createDeployment nsName deployment])
      | .ok dMeta =>
          let deployment_name := dMeta.getD ("jupyter-" ++ name)
          let service := create_jupyter_service name nsName
          match serviceResp with
          | .apiError _ e =>
              ({ phase := "Failed", error := some e, message := some "Failed to create resources" },
               [.createDeployment nsName deployment, .createService nsName service])
          | .ok sMeta =>
              let service_name := sMeta.getD ("jupyter-" ++ name ++ "-service")
              ({ phase := "Running"
                 deploymentName := some deployment_name
                 serviceName := some service_name
                 accessInstructions := some
                   { portForward := "kubectl port-forward service/" ++ service_name
                       ++ " 8888:8888 -n " ++ nsName
                     url := "http://localhost:8888" } },
               [.createDeployment nsName deployment, .createService nsName service])

/-- What `handle_delete_notebook` did: the calls it issued, the warnings it
logged, and the status it returned (Python `None`: always `none`). Returning
a `DeleteResult` at all models returning without raising. -/
structure DeleteResult where
  calls : List ApiCall
  warnings : List String
  status : Option StatusObj
deriving DecidableEq

/-- `handle_delete_notebook(name, namespace)`: both deletion calls are always
issued; an `ApiException` with status 404 from either is ignored, any other
`ApiException` is logged as a warning; the handler returns `None`. -/
def handle_delete_notebook (name nsName : String)
    (deployResp serviceResp : ApiResponse) : DeleteResult :=
  let deployment_name := "jupyter-" ++ name
  let service_name := "jupyter-" ++ name ++ "-service"
  let deployWarnings :=
    match deployResp with
    | .ok _ => []
    | .apiError status e =>
        if status ≠ 404 then
          ["Failed to delete deployment " ++ deployment_name ++ ": " ++ e]
        else []
  let serviceWarnings :=
    match serviceResp with
    | .ok _ => []
    | .apiError status e =>
        if status ≠ 404 then
          ["Failed to delete service " ++ service_name ++ ": " ++ e]
        else []
  { calls := [.deleteDeployment deployment_name nsName,
              .deleteService service_name nsName]
    warnings := deployWarnings ++ serviceWarnings
    status := none }

/-- `handle_update_notebook(spec, name, namespace, old, new)`.
`old`/`new` are the full resource bodies; `patchResp` is the response the
client would give the deployment patch call. Returns the status dict
(Python `None` when no change) and the calls issued. -/
def handle_update_notebook (spec : List (String × Value)) (name nsName : String)
    (old new : List (String × Value)) (patchResp : ApiResponse) :
    Option StatusObj × List ApiCall :=
  let old_spec := (old.lookup "spec").getD (.vobj [])
  let new_spec := (new.lookup "spec").getD (.vobj [])
  if Value.beq old_spec new_spec then
    (none, [])
  else
    match validateSpec spec with
    | .error e =>
        (some { phase := "Failed", error := some e, message := some "Invalid spec" }, [])
    | .ok jupyter_spec =>
        let deployment_name := "jupyter-" ++ name
        let deployment := create_jupyter_deployment name nsName jupyter_spec
        match patchResp with
        | .apiError _ e =>
            (some { phase := "Failed", error := some e },
             [.patchDeployment deployment_name nsName deployment])
        | .ok _ =>
            (some { phase := "Running"
                    deploymentName := some deployment_name
                    serviceName := some ("jupyter-" ++ name ++ "-service") },
             [.patchDeployment deployment_name nsName deployment])

/-- A minimal model of the cluster store's state, for the idempotent-delete
claim: the `(namespace, name)` keys of existing deployments and services. -/
structure Cluster where
  deployments : List (String × String)
  services : List (String × String)
deriving DecidableEq

/-- The store's response to a deployment deletion: remove the key and return
the object when present, raise a 404 `ApiException` when absent. -/
def clusterDeleteDeployment (c : Cluster) (nsName name : String) :
    Cluster × ApiResponse :=
  if (nsName, name) ∈ c.deployments then
    ({ c with deployments := c.deployments.filter (fun k => decide (k ≠ (nsName, name))) },
     .ok (some name))
  else
    (c, .apiError 404 "Not Found")

/-- The store's response to a service deletion. -/
def clusterDeleteService (c : Cluster) (nsName name : String) :
    Cluster × ApiResponse :=
  if (nsName, name) ∈ c.services then
    ({ c with services := c.services.filter (fun k => decide (k ≠ (nsName, name))) },
     .ok (some name))
  else
    (c, .apiError 404 "Not Found")

/-- One delete event run against the cluster-state model. -/
structure DeleteRun where
  cluster : Cluster
  deployResp : ApiResponse
  serviceResp : ApiResponse
  result : DeleteResult
deriving DecidableEq

/-- Run `handle_delete_notebook` against the cluster-state model: the store
answers each deletion call from its current state. -/
def runDelete (c : Cluster) (name nsName : String) : DeleteRun :=
  let d := clusterDeleteDeployment c nsName ("jupyter-" ++ name)
  let s := clusterDeleteService d.1 nsName ("jupyter-" ++ name ++ "-service")
  { cluster := s.1
    deployResp := d.2
    serviceResp := s.2
    result := handle_delete_notebook name nsName d.2 s.2 }

/-- Is this call a service-creation call? (used to compare the service
submissions of two handler runs). -/
def ApiCall.isCreateService : ApiCall → Bool
  | .createService _ _ => true
  | _ => false

mutual

/-- `Value.beq` is reflexive: Python `==` holds between equal payloads. -/
theorem Value.beq_refl : ∀ v : Value, Value.beq v v = true
  | .vstr s => by simp [Value.beq]
  | .vint n => by simp [Value.beq]
  | .vbool b => by simp [Value.beq]
  | .vnull => by simp [Value.beq]
  | .vobj f => by
      rw [Value.beq]
      exact Value.beqFields_refl f

/-- `Value.beqFields` is reflexive. -/
theorem Value.beqFields_refl : ∀ f : List (String × Value), Value.beqFields f f = true
  | [] => by rw [Value.beqFields]
  | (k, v) :: t => by
      rw [Value.beqFields]
      simp [Value.beq_refl v, Value.beqFields_refl t]

end

/-- Filtering out a key leaves a list it does not belong to. -/
theorem not_mem_filter_ne (l : List (String × String)) (x : String × String) :
    x ∉ l.filter (fun k => decide (k ≠ x)) := by
  intro hx
  rcases List.mem_filter.mp hx with ⟨-, h⟩
  simp at h

/-- Deleting a deployment never changes the stored services. -/
theorem clusterDeleteDeployment_services (c : Cluster) (nsName name : String) :
    ((clusterDeleteDeployment c nsName name).1).services = c.services := by
  unfold clusterDeleteDeployment
  split <;> rfl

/-- Deleting a service never changes the stored deployments. -/
theorem clusterDeleteService_deployments (c : Cluster) (nsName name : String) :
    ((clusterDeleteService c nsName name).1).deployments = c.deployments := by
  unfold clusterDeleteService
  split <;> rfl

/-- A delete run never logs a warning in the cluster-state model: the store
answers each call with success or 404, and both are treated as success. -/
theorem runDelete_warnings (c : Cluster) (name nsName : String) :
    (runDelete c name nsName).result.warnings = [] := by
  unfold runDelete clusterDeleteDeployment clusterDeleteService
  by_cases h1 : (nsName, "jupyter-" ++ name) ∈ c.deployments <;>
  by_cases h2 : (nsName, "jupyter-" ++ name ++ "-service") ∈ c.services <;>
    simp [handle_delete_notebook, h1, h2]

/-- After a delete run, the workload's key is absent from the store. -/
theorem runDelete_removes_deployment (c : Cluster) (name nsName : String) :
    (nsName, "jupyter-" ++ name) ∉ (runDelete c name nsName).cluster.deployments := by
  unfold runDelete clusterDeleteDeployment clusterDeleteService
  by_cases h1 : (nsName, "jupyter-" ++ name) ∈ c.deployments <;>
  by_cases h2 : (nsName, "jupyter-" ++ name ++ "-service") ∈ c.services <;>
    simp [h1, h2, not_mem_filter_ne]

/-- After a delete run, the service's key is absent from the store. -/
theorem runDelete_removes_service (c : Cluster) (name nsName : String) :
    (nsName, "jupyter-" ++ name ++ "-service") ∉ (runDelete c name nsName).cluster.services := by
  unfold runDelete clusterDeleteDeployment clusterDeleteService
  by_cases h1 : (nsName, "jupyter-" ++ name) ∈ c.deployments <;>
  by_cases h2 : (nsName, "jupyter-" ++ name ++ "-service") ∈ c.services <;>
    simp [h1, h2, not_mem_filter_ne]

/-- When the workload's key is absent, the store answers its deletion call
with 404. -/
theorem runDelete_deployResp_of_not_mem (c : Cluster) (name nsName : String)
    (h : (nsName, "jupyter-" ++ name) ∉ c.deployments) :
    (runDelete c name nsName).deployResp = .apiError 404 "Not Found" := by
  unfold runDelete clusterDeleteDeployment clusterDeleteService
  by_cases h2 : (nsName, "jupyter-" ++ name ++ "-service") ∈ c.services <;> simp [h, h2]

/-- When the service's key is absent, the store answers its deletion call
with 404. -/
theorem runDelete_serviceResp_of_not_mem (c : Cluster) (name nsName : String)
    (h : (nsName, "jupyter-" ++ name ++ "-service") ∉ c.services) :
    (runDelete c name nsName).serviceResp = .apiError 404 "Not Found" := by
  unfold runDelete clusterDeleteDeployment clusterDeleteService
  by_cases h1 : (nsName, "jupyter-" ++ name) ∈ c.deployments <;> simp [h1, h]

/-- C1: for every resource name (and namespace and validated spec), the
workload's pod-template labels, the workload's selector match-labels, and
the service's selector are pairwise identical and equal to
`{app: "jupyter-server", instance: name}`. -/
theorem labels_pairwise_identical (name nsName : String)
    (jupyter_spec : JupyterServerSpec) :
    (create_jupyter_deployment name nsName jupyter_spec).spec.template.metadata.labels
        = some [("app", "jupyter-server"), ("instance", name)] ∧
    (create_jupyter_deployment name nsName jupyter_spec).spec.selector.matchLabels
        = [("app", "jupyter-server"), ("instance", name)] ∧
    (create_jupyter_service name nsName).spec.selector
        = [("app", "jupyter-server"), ("instance", name)] :=
  ⟨rfl, rfl, rfl⟩

/-- C2: for every valid spec and resource name, the built workload
descriptor's name is `"jupyter-" + name` and the built service descriptor's
name is that workload name plus `"-service"`. -/
theorem derived_names_correct (name nsName : String)
    (jupyter_spec : JupyterServerSpec) :
    (create_jupyter_deployment name nsName jupyter_spec).metadata.name
        = some ("jupyter-" ++ name) ∧
    (create_jupyter_service name nsName).metadata.name
        = some (("jupyter-" ++ name) ++ "-service") :=
  ⟨rfl, rfl⟩

/-- C3: for every create event whose untyped spec payload fails validation,
the create handler returns a Failed status with the validation error and the
message `"Invalid spec"`, and issues zero calls to the cluster-API client. -/
theorem create_invalid_spec_fails_closed (spec meta : List (String × Value))
    (name nsName : String) (deployResp serviceResp : ApiResponse) (e : String)
    (h : validateSpec spec = .error e) :
    handle_create_notebook spec name nsName meta deployResp serviceResp =
      ({ phase := "Failed", error := some e, message := some "Invalid spec" }, []) := by
  simp [handle_create_notebook, h]

/-- Witness for C3: a payload missing `image` fails validation, and the
create handler returns Failed with zero calls. -/
theorem create_invalid_spec_fails_closed_witness :
    validateSpec [("name", Value.vstr "nb1")] = .error "image: Field required" ∧
    handle_create_notebook [("name", Value.vstr "nb1")] "nb1" "default" []
        (.ok (some "jupyter-nb1")) (.ok (some "jupyter-nb1-service")) =
      ({ phase := "Failed", error := some "image: Field required",
         message := some "Invalid spec" }, []) :=
  ⟨rfl, create_invalid_spec_fails_closed _ _ _ _ _ _ _ rfl⟩

/-- C4: for every create event with a valid spec, the workload-creation call
comes first; and if it raises an external API error, the service-creation
call is never made and the handler returns Failed with the raw error and the
message `"Failed to create resources"`. -/
theorem create_workload_failure_isolated (spec meta : List (String × Value))
    (name nsName : String) (jupyter_spec : JupyterServerSpec)
    (h : validateSpec spec = .ok jupyter_spec) :
    (∀ deployResp serviceResp : ApiResponse,
      ((handle_create_notebook spec name nsName meta deployResp serviceResp).2).head? =
        some (.createDeployment nsName (create_jupyter_deployment name nsName jupyter_spec))) ∧
    (∀ (st : Nat) (msg : String) (serviceResp : ApiResponse),
      handle_create_notebook spec name nsName meta (.apiError st msg) serviceResp =
        ({ phase := "Failed", error := some msg,
           message := some "Failed to create resources" },
         [.createDeployment nsName (create_jupyter_deployment name nsName jupyter_spec)])) := by
  constructor
  · intro deployResp serviceResp
    cases deployResp <;> cases serviceResp <;> simp [handle_create_notebook, h]
  · intro st msg serviceResp
    cases serviceResp <;> simp [handle_create_notebook, h]

/-- Witness for C4: a valid spec whose workload creation raises a conflict
yields Failed with `"Failed to create resources"` and only the one call. -/
theorem create_workload_failure_isolated_witness :
    validateSpec [("name", Value.vstr "nb1"), ("image", Value.vstr "img:tag")] =
      .ok { name := "nb1", image := "img:tag" } ∧
    handle_create_notebook [("name", Value.vstr "nb1"), ("image", Value.vstr "img:tag")]
        "nb1" "default" [] (.apiError 409 "Conflict") (.ok none) =
      ({ phase := "Failed", error := some "Conflict",
         message := some "Failed to create resources" },
       [.createDeployment "default"
          (create_jupyter_deployment "nb1" "default" { name := "nb1", image := "img:tag" })]) :=
  ⟨rfl, (create_workload_failure_isolated
      [("name", Value.vstr "nb1"), ("image", Value.vstr "img:tag")] [] "nb1" "default"
      { name := "nb1", image := "img:tag" } rfl).2 409 "Conflict" (.ok none)⟩

/-- C5: for every update event whose old body's spec equals the new body's
spec, the update handler returns `None` (NoChange) and issues zero external
calls. -/
theorem update_noop_detection (spec : List (String × Value)) (name nsName : String)
    (old new : List (String × Value)) (patchResp : ApiResponse)
    (h : (old.lookup "spec").getD (.vobj []) = (new.lookup "spec").getD (.vobj [])) :
    handle_update_notebook spec name nsName old new patchResp = (none, []) := by
  simp [handle_update_notebook, h, Value.beq_refl]

/-- Witness for C5: an update whose old and new bodies carry the same spec
yields `None` and no calls. -/
theorem update_noop_detection_witness :
    ((([("spec", Value.vobj [("image", Value.vstr "img:1")])] :
        List (String × Value)).lookup "spec").getD (.vobj []) =
      (([("spec", Value.vobj [("image", Value.vstr "img:1")])] :
        List (String × Value)).lookup "spec").getD (.vobj [])) ∧
    handle_update_notebook [("name", Value.vstr "nb1"), ("image", Value.vstr "img:1")]
        "nb1" "default"
        [("spec", Value.vobj [("image", Value.vstr "img:1")])]
        [("spec", Value.vobj [("image", Value.vstr "img:1")])]
        (.ok (some "jupyter-nb1")) = (none, []) :=
  ⟨rfl, update_noop_detection _ _ _ _ _ _ rfl⟩

/-- C6: for every delete event and any responses to the two deletion calls
(including non-404 errors from either), both deletion calls are issued, the
handler returns normally, and no status object is produced. -/
theorem delete_best_effort_isolation (name nsName : String)
    (deployResp serviceResp : ApiResponse) :
    (handle_delete_notebook name nsName deployResp serviceResp).calls =
      [.deleteDeployment ("jupyter-" ++ name) nsName,
       .deleteService ("jupyter-" ++ name ++ "-service") nsName] ∧
    (handle_delete_notebook name nsName deployResp serviceResp).status = none :=
  ⟨rfl, rfl⟩

/-- C7: in the cluster-state model, a "not found" response is treated as
success: deleting the same resource name twice in succession logs no warning
either time, and the second run receives 404 from both deletion calls
because both child resources are already absent. -/
theorem delete_idempotent (c : Cluster) (name nsName : String) :
    (runDelete c name nsName).result.warnings = [] ∧
    (runDelete (runDelete c name nsName).cluster name nsName).result.warnings = [] ∧
    (runDelete (runDelete c name nsName).cluster name nsName).deployResp =
      .apiError 404 "Not Found" ∧
    (runDelete (runDelete c name nsName).cluster name nsName).serviceResp =
      .apiError 404 "Not Found" := by
  exact ⟨runDelete_warnings c name nsName,
         runDelete_warnings _ name nsName,
         runDelete_deployResp_of_not_mem _ name nsName
           (runDelete_removes_deployment c name nsName),
         runDelete_serviceResp_of_not_mem _ name nsName
           (runDelete_removes_service c name nsName)⟩

/-- C8 counterexample: a changed, valid update whose patch call raises an
API error returns a Failed status whose `message` field is absent (`none`),
not a fixed human-readable message. -/
theorem update_api_error_missing_message_cex :
    (handle_update_notebook [("name", Value.vstr "nb1"), ("image", Value.vstr "img:new")]
        "nb1" "default"
        [("spec", Value.vobj [("image", Value.vstr "img:old")])]
        [("spec", Value.vobj [("image", Value.vstr "img:new")])]
        (.apiError 400 "(400) Bad Request")).1 =
      some { phase := "Failed", error := some "(400) Bad Request", message := none } :=
  rfl

/-- C8 (amended): for every update event with a changed, valid spec whose
workload patch call raises an external API error, the handler returns a
Failed status containing the raw error but no message field. -/
theorem update_api_error_failed_status (spec : List (String × Value))
    (name nsName : String) (old new : List (String × Value))
    (jupyter_spec : JupyterServerSpec) (st : Nat) (msg : String)
    (hchange : Value.beq ((old.lookup "spec").getD (.vobj []))
        ((new.lookup "spec").getD (.vobj [])) = false)
    (hvalid : validateSpec spec = .ok jupyter_spec) :
    handle_update_notebook spec name nsName old new (.apiError st msg) =
      (some { phase := "Failed", error := some msg, message := none },
       [.patchDeployment ("jupyter-" ++ name) nsName
          (create_jupyter_deployment name nsName jupyter_spec)]) := by
  simp [handle_update_notebook, hchange, hvalid]

/-- Witness for the amended C8: a concrete changed, valid update whose patch
call raises yields Failed with the raw error and `message = none`. -/
theorem update_api_error_failed_status_witness :
    Value.beq ((([("spec", Value.vobj [("image", Value.vstr "img:old")])] :
          List (String × Value)).lookup "spec").getD (.vobj []))
        ((([("spec", Value.vobj [("image", Value.vstr "img:new")])] :
          List (String × Value)).lookup "spec").getD (.vobj [])) = false ∧
    validateSpec [("name", Value.vstr "nb1"), ("image", Value.vstr "img:new")] =
      .ok { name := "nb1", image := "img:new" } ∧
    handle_update_notebook [("name", Value.vstr "nb1"), ("image", Value.vstr "img:new")]
        "nb1" "default"
        [("spec", Value.vobj [("image", Value.vstr "img:old")])]
        [("spec", Value.vobj [("image", Value.vstr "img:new")])]
        (.apiError 422 "Unprocessable") =
      (some { phase := "Failed", error := some "Unprocessable", message := none },
       [.patchDeployment "jupyter-nb1" "default"
          (create_jupyter_deployment "nb1" "default" { name := "nb1", image := "img:new" })]) :=
  ⟨rfl, rfl, update_api_error_failed_status _ _ _ _ _ _ 422 "Unprocessable" rfl rfl⟩

/-- C9: for every two validated specs and fixed name/namespace, the service
submissions of the create handler are identical: service construction
depends only on the resource name and namespace, never on spec contents. -/
theorem service_submission_ignores_spec
    (spec1 spec2 meta1 meta2 : List (String × Value)) (name nsName : String)
    (j1 j2 : JupyterServerSpec) (deployResp serviceResp : ApiResponse)
    (h1 : validateSpec spec1 = .ok j1) (h2 : validateSpec spec2 = .ok j2) :
    ((handle_create_notebook spec1 name nsName meta1 deployResp serviceResp).2).filter
        ApiCall.isCreateService =
    ((handle_create_notebook spec2 name nsName meta2 deployResp serviceResp).2).filter
        ApiCall.isCreateService := by
  cases deployResp <;> cases serviceResp <;>
    simp [handle_create_notebook, h1, h2, ApiCall.isCreateService]

/-- Witness for C9: two valid specs with different images (and names) lead
to identical service submissions. -/
theorem service_submission_ignores_spec_witness :
    validateSpec [("name", Value.vstr "a"), ("image", Value.vstr "img:1")] =
      .ok { name := "a", image := "img:1" } ∧
    validateSpec [("name", Value.vstr "b"), ("image", Value.vstr "img:2")] =
      .ok { name := "b", image := "img:2" } ∧
    ((handle_create_notebook [("name", Value.vstr "a"), ("image", Value.vstr "img:1")]
        "nb1" "default" [] (.ok none) (.ok none)).2).filter ApiCall.isCreateService =
    ((handle_create_notebook [("name", Value.vstr "b"), ("image", Value.vstr "img:2")]
        "nb1" "default" [] (.ok none) (.ok none)).2).filter ApiCall.isCreateService :=
  ⟨rfl, rfl,
   service_submission_ignores_spec _ _ _ _ _ _ _ _ _ _ rfl rfl⟩

/-- C10: two validated specs that agree on `image`, `desiredStatus` and
`resources` (i.e. differ at most in `name` and `serviceAccountName`) yield
identical workload descriptors, and the service descriptor never depends on
the spec at all: derived names and labels come from the event's resource
name argument only. -/
theorem descriptors_ignore_spec_name_and_service_account
    (s1 s2 : JupyterServerSpec) (name nsName : String)
    (himage : s1.image = s2.image)
    (hstatus : s1.desiredStatus = s2.desiredStatus)
    (hresources : s1.resources = s2.resources) :
    create_jupyter_deployment name nsName s1 = create_jupyter_deployment name nsName s2 ∧
    create_jupyter_service name nsName = create_jupyter_service name nsName := by
  refine ⟨?_, rfl⟩
  unfold create_jupyter_deployment
  rw [himage, hresources]

/-- Witness for C10: two specs differing only in `name` and
`serviceAccountName` build the same deployment. -/
theorem descriptors_ignore_spec_name_and_service_account_witness :
    ({ name := "a", image := "img", serviceAccountName := some "sa1" } :
        JupyterServerSpec).image =
      ({ name := "b", image := "img" } : JupyterServerSpec).image ∧
    create_jupyter_deployment "nb1" "default"
        { name := "a", image := "img", serviceAccountName := some "sa1" } =
      create_jupyter_deployment "nb1" "default" { name := "b", image := "img" } :=
  ⟨rfl,
   (descriptors_ignore_spec_name_and_service_account
      { name := "a", image := "img", serviceAccountName := some "sa1" }
      { name := "b", image := "img" } "nb1" "default" rfl rfl rfl).1⟩

end JupyterK8s
